import Mathlib

/-
  Verification development for the neowall compositor backend abstraction
  layer.  The definitions below are shallow embeddings of the C sources:

  * src/compositor/compositor_registry.c — protocol detection state,
    compositor classification (detect_compositor_type), backend
    registration (compositor_backend_register), backend selection
    (select_backend) and the public lifecycle entry points
    (compositor_backend_init / _cleanup / _get_capabilities).
  * src/compositor/backends/x11.c — the X11 backend: output detection
    (x11_detect_outputs), backend initialization (x11_backend_init),
    surface creation (x11_create_surface) and configuration
    (x11_configure_surface).

  Pointers that may be NULL are modelled as `Option`; C linked lists as
  `List` (built by prepending, exactly as the source pushes onto the list
  head); machine-integer truncations are made explicit with `% 2 ^ w`.
-/

set_option autoImplicit false

namespace Neowall

/- ============================================================================
   PROTOCOL DETECTION STATE  (compositor_registry.c, protocol_state_t)
   ============================================================================ -/

/-- `protocol_state_t`: one boolean flag per watched Wayland protocol
extension, plus a compositor name buffer. -/
structure ProtocolState where
  has_layer_shell : Bool
  has_kde_shell : Bool
  has_gtk_shell : Bool
  has_viewporter : Bool
  compositor_name : String
deriving Repr, DecidableEq

/-- Environment hints read with `getenv` inside `detect_compositor_type`:
`XDG_CURRENT_DESKTOP`, `XDG_SESSION_DESKTOP`, `WAYLAND_DISPLAY`, and the
presence of `SWAYSOCK`.  `none` models an unset variable (NULL pointer). -/
structure EnvHints where
  xdg_current_desktop : Option String
  xdg_session_desktop : Option String
  wayland_display : Option String
  swaysock : Bool
deriving Repr, DecidableEq

/-- Does `hay` start with `needle` (character lists)? -/
def charsStartWith : List Char → List Char → Bool
  | [], _ => true
  | _ :: _, [] => false
  | a :: as, b :: bs => a == b && charsStartWith as bs

/-- Does `needle` occur as a contiguous run inside `hay`? -/
def strstrChars (needle : List Char) : List Char → Bool
  | [] => charsStartWith needle []
  | b :: bs => charsStartWith needle (b :: bs) || strstrChars needle bs

/-- C `strstr(hay, needle) != NULL`: `needle` occurs as a contiguous
substring of `hay`. -/
def strstrB (hay needle : String) : Bool :=
  strstrChars needle.toList hay.toList

/-- `var && strstr(var, needle)` on a possibly-NULL environment variable. -/
def envHas (v : Option String) (needle : String) : Bool :=
  match v with
  | none => false
  | some s => strstrB s needle

/-- `compositor_type_t` (compositor.h). -/
inductive CompositorType where
  | unknown
  | hyprland
  | sway
  | river
  | wayfire
  | kdePlasma
  | gnomeShell
  | mutter
  | weston
  | generic
deriving Repr, DecidableEq

/-- `detect_compositor_type` (compositor_registry.c:112-186): a chain of
first-match-wins checks.  The environment is passed explicitly here where
the C reads it through `getenv`. -/
def detect_compositor_type (env : EnvHints) (proto : ProtocolState) : CompositorType :=
  if envHas env.xdg_current_desktop "Hyprland" || envHas env.xdg_session_desktop "Hyprland"
      || envHas env.wayland_display "hyprland" then .hyprland
  else if envHas env.xdg_current_desktop "sway" || envHas env.xdg_session_desktop "sway"
      || env.swaysock then .sway
  else if envHas env.xdg_current_desktop "river" || envHas env.xdg_session_desktop "river" then .river
  else if envHas env.xdg_current_desktop "wayfire" || envHas env.xdg_session_desktop "wayfire" then .wayfire
  else if envHas env.xdg_current_desktop "KDE" || envHas env.xdg_session_desktop "plasma"
      || proto.has_kde_shell then .kdePlasma
  else if envHas env.xdg_current_desktop "GNOME" || envHas env.xdg_session_desktop "gnome"
      || proto.has_gtk_shell then .gnomeShell
  else if envHas env.xdg_session_desktop "mutter" then .mutter
  else if envHas env.xdg_current_desktop "weston" || envHas env.xdg_session_desktop "weston" then .weston
  else if proto.has_layer_shell then .generic
  else .unknown

/-- `compositor_info_t` (compositor.h), restricted to the fields the
selection logic reads; name/version strings are derived display data. -/
structure CompositorInfo where
  type : CompositorType
  has_layer_shell : Bool
  has_kde_shell : Bool
  has_gtk_shell : Bool
deriving Repr, DecidableEq

/-- `compositor_detect` (compositor_registry.c:206-224): classify and copy
the protocol flags into the info record. -/
def compositor_detect (env : EnvHints) (proto : ProtocolState) : CompositorInfo :=
  { type := detect_compositor_type env proto
    has_layer_shell := proto.has_layer_shell
    has_kde_shell := proto.has_kde_shell
    has_gtk_shell := proto.has_gtk_shell }

/- ============================================================================
   BACKEND REGISTRY  (compositor_registry.c:29-39, 230-263)
   ============================================================================ -/

/-- `MAX_BACKENDS` (compositor_registry.c:29). -/
def MAX_BACKENDS : Nat := 16

/-- `compositor_backend_ops_t`, specialized to what selection observes:
`init` either produces backend-private data (the `void *` payload, of
type `δ`) or NULL, and `get_capabilities` maps that data to a bitmask.
The remaining operations act on surfaces and are modelled separately for
the X11 backend. -/
structure BackendOps (δ : Type) where
  init : Option δ
  getCapabilities : δ → Nat

/-- One row of `backend_registry` (compositor_registry.c:32-37).  The C
stores the `description` pointer unchecked, so it may be NULL. -/
structure RegEntry (δ : Type) where
  name : String
  description : Option String
  priority : Int
  ops : BackendOps δ

/-- Which of the four exit paths `compositor_backend_register` took; the
C function returns `bool` and distinguishes the failures by log message. -/
inductive RegisterResult where
  | registryFull
  | invalidArgument
  | duplicateName
  | ok
deriving Repr, DecidableEq

/-- `compositor_backend_register` (compositor_registry.c:230-263).
Checks, in source order: table capacity, NULL `name`/`ops`, duplicate
name; on success appends one row.  Returns the exit path taken together
with the updated table. -/
def compositor_backend_register {δ : Type} (reg : List (RegEntry δ))
    (name : Option String) (description : Option String) (priority : Int)
    (ops : Option (BackendOps δ)) : RegisterResult × List (RegEntry δ) :=
  if MAX_BACKENDS ≤ reg.length then (.registryFull, reg)
  else
    match name, ops with
    | some nm, some o =>
      if reg.any (fun e => e.name == nm) then (.duplicateName, reg)
      else (.ok, reg ++ [⟨nm, description, priority, o⟩])
    | _, _ => (.invalidArgument, reg)

/-- Registry lookup: the first row whose name matches, exactly as the
scan loops in `select_backend` walk `backend_registry` front to back. -/
def lookupBackend {δ : Type} (reg : List (RegEntry δ)) (nm : String) : Option (RegEntry δ) :=
  reg.find? (fun e => e.name == nm)

/- ============================================================================
   BACKEND SELECTION  (compositor_registry.c:270-375)
   ============================================================================ -/

/-- `struct compositor_backend` (compositor.h): the live backend built by
`select_backend` on success. -/
structure CBackend (δ : Type) where
  name : String
  description : Option String
  priority : Int
  ops : BackendOps δ
  data : δ
  capabilities : Nat

/-- The `preferred_backend` decision table inside `select_backend`
(compositor_registry.c:277-308). -/
def preferred_backend (info : CompositorInfo) : String :=
  match info.type with
  | .kdePlasma => "wlr-layer-shell"
  | .hyprland | .sway | .river | .wayfire => "wlr-layer-shell"
  | .gnomeShell | .mutter => "gnome-shell"
  | _ => if info.has_layer_shell then "wlr-layer-shell" else "fallback"

/-- One lookup/init attempt against a backend name: the shape of both
scan loops in `select_backend`.  Finds the first registry row with the
given name; if its `init` returns NULL the loop `break`s (result NULL),
otherwise the `compositor_backend` structure is filled in, caching
`get_capabilities` of the fresh data. -/
def tryInitNamed {δ : Type} (reg : List (RegEntry δ)) (nm : String) : Option (CBackend δ) :=
  match reg.find? (fun e => e.name == nm) with
  | none => none
  | some e =>
    match e.ops.init with
    | none => none
    | some d =>
      some ⟨e.name, e.description, e.priority, e.ops, d, e.ops.getCapabilities d⟩

/-- `select_backend` (compositor_registry.c:270-375): try the preferred
name; if that lookup or init fails and the preferred name was not already
"fallback", retry with the literal name "fallback"; otherwise NULL. -/
def select_backend {δ : Type} (reg : List (RegEntry δ)) (info : CompositorInfo) :
    Option (CBackend δ) :=
  match tryInitNamed reg (preferred_backend info) with
  | some b => some b
  | none =>
    if preferred_backend info == "fallback" then none
    else tryInitNamed reg "fallback"

/- ============================================================================
   PUBLIC LIFECYCLE ENTRY POINTS  (compositor_registry.c:382-443)
   ============================================================================ -/

/-- `struct neowall_state`, restricted to the only field this module
reads: the Wayland display connection (possibly NULL). -/
structure NeowallState where
  display : Option Unit
deriving Repr, DecidableEq

/-- `compositor_backend_init` (compositor_registry.c:382-419).  The
Wayland probe and the per-backend self-registration calls are external
to this translation unit, so they enter as parameters: `env`/`proto`
feed `compositor_detect`, and `registerAll` is the block of
`compositor_backend_*_init` registration calls applied to the registry.
Returns the selected backend (or NULL) with the registry state. -/
def compositor_backend_init {δ : Type}
    (registerAll : List (RegEntry δ) → List (RegEntry δ))
    (env : EnvHints) (proto : ProtocolState)
    (reg : List (RegEntry δ)) (state : Option NeowallState) :
    Option (CBackend δ) × List (RegEntry δ) :=
  match state with
  | none => (none, reg)
  | some st =>
    match st.display with
    | none => (none, reg)
    | some _ =>
      let info := compositor_detect env proto
      let reg2 := registerAll reg
      (select_backend reg2 info, reg2)

/-- The externally visible effects of `compositor_backend_cleanup`:
calling the backend's `cleanup` op on its private data, and freeing the
backend structure. -/
inductive CleanupAction (δ : Type) where
  | opsCleanup (d : δ)
  | freeBackend
deriving Repr

/-- `compositor_backend_cleanup` (compositor_registry.c:422-434) as its
trace of effects: a NULL backend produces none. -/
def compositor_backend_cleanup {δ : Type} (backend : Option (CBackend δ)) :
    List (CleanupAction δ) :=
  match backend with
  | none => []
  | some b => [.opsCleanup b.data, .freeBackend]

/-- `COMPOSITOR_CAP_NONE` (compositor.h). -/
def COMPOSITOR_CAP_NONE : Nat := 0

/-- `compositor_backend_get_capabilities` (compositor_registry.c:437-443). -/
def compositor_backend_get_capabilities {δ : Type} (backend : Option (CBackend δ)) : Nat :=
  match backend with
  | none => COMPOSITOR_CAP_NONE
  | some b => b.capabilities

/- ============================================================================
   X11 BACKEND  (backends/x11.c)
   ============================================================================ -/

/-- `xcb_randr_get_crtc_info` reply geometry (x/y are `int16_t`,
width/height `uint16_t`). -/
structure RandrCrtcInfo where
  x : Int
  y : Int
  width : Nat
  height : Nat
deriving Repr, DecidableEq

/-- One `xcb_randr_get_output_info` reply: connection status, whether the
crtc field is `XCB_NONE`, the crtc-info reply (NULL possible), and the
output name. -/
structure RandrOutputReply where
  connected : Bool
  crtcNone : Bool
  crtcInfo : Option RandrCrtcInfo
  name : String
deriving Repr, DecidableEq

/-- The X server facts `x11_detect_outputs` consults: RandR presence,
the primary screen's pixel dimensions, and — when RandR is queried — the
screen-resources reply (`none` = reply NULL) carrying one possibly-NULL
output-info reply per advertised output. -/
structure X11Setup where
  hasRandr : Bool
  screenWidth : Nat
  screenHeight : Nat
  randrResources : Option (List (Option RandrOutputReply))
deriving Repr, DecidableEq

/-- `x11_output_t` (x11.c:67-75): position, size and name of one
detected output.  The C keeps these in a singly linked list built by
pushing onto the head. -/
structure X11Output where
  x : Int
  y : Int
  width : Nat
  height : Nat
  name : String
deriving Repr, DecidableEq

/-- `x11_detect_outputs` (x11.c:164-269).  Without RandR: one synthetic
output covering the whole primary screen, success.  With RandR: a NULL
screen-resources reply is a failure (`none`, the C `return false`);
otherwise each connected output with a crtc and a crtc-info reply is
prepended to the list, and success requires at least one such output.
Failure of this function makes `x11_backend_init` fail. -/
def x11_detect_outputs (setup : X11Setup) : Option (List X11Output) :=
  if !setup.hasRandr then
    some [⟨0, 0, setup.screenWidth, setup.screenHeight, "screen"⟩]
  else
    match setup.randrResources with
    | none => none
    | some replies =>
      let outs := replies.foldl (fun acc rep =>
        match rep with
        | none => acc
        | some r =>
          if !r.connected || r.crtcNone then acc
          else
            match r.crtcInfo with
            | none => acc
            | some ci => (⟨ci.x, ci.y, ci.width, ci.height, r.name⟩ : X11Output) :: acc) []
      if 0 < outs.length then some outs else none

/-- `x11_backend_data_t` (x11.c:78-102), restricted to the fields the
modelled operations read. -/
structure X11BackendData where
  hasRandr : Bool
  hasXfixes : Bool
  outputs : List X11Output
  initialized : Bool
deriving Repr, DecidableEq

/-- `x11_backend_init` (x11.c:383-484), from the point where the
connection, screen and atoms are already established (those round-trips
are external): if output detection fails the whole init returns NULL,
otherwise the backend data is returned with `initialized` set. -/
def x11_backend_init (setup : X11Setup) (hasXfixes : Bool) : Option X11BackendData :=
  match x11_detect_outputs setup with
  | none => none
  | some outs => some ⟨setup.hasRandr, hasXfixes, outs, true⟩

/-- `compositor_layer_t` (compositor.h). -/
inductive CompositorLayer where
  | background
  | bottom
  | top
  | overlay
deriving Repr, DecidableEq

/-- `compositor_surface_config_t` (compositor.h:90-98); the target
output pointer is abstracted to an identifier, `none` = NULL = all
outputs. -/
structure SurfaceConfig where
  layer : CompositorLayer
  anchor : Nat
  exclusive_zone : Int
  keyboard_interactivity : Bool
  width : Int
  height : Int
  output : Option Nat
deriving Repr, DecidableEq

/-- The observable state of one X11 wallpaper surface: the created X
window's geometry (as passed to `xcb_create_window` /
`xcb_configure_window`), and the `compositor_surface` fields the backend
maintains. -/
structure CompositorSurfaceX11 where
  windowX : Int
  windowY : Int
  windowW : Nat
  windowH : Nat
  output : Option Nat
  config : SurfaceConfig
  width : Int
  height : Int
  scale : Int
  mapped : Bool
  configured : Bool
deriving Repr, DecidableEq

/-- `x11_create_surface` (x11.c:506-588).  `windowOk` models whether
`xcb_create_window_checked` succeeds on the server.  The surface is
always placed on the head of the backend's output list (the C takes
`backend->outputs` and never matches `config->output`); a zero or
negative configured width/height falls back to that output's dimensions;
the positive `int32_t` width is truncated to `uint16_t`.  No output, an
uninitialized backend, or a window-creation error give NULL. -/
def x11_create_surface (windowOk : Bool) (backend : X11BackendData)
    (config : SurfaceConfig) : Option CompositorSurfaceX11 :=
  if !backend.initialized then none
  else
    match backend.outputs with
    | [] => none
    | out :: _ =>
      let width : Nat := if 0 < config.width then config.width.toNat % 65536 else out.width
      let height : Nat := if 0 < config.height then config.height.toNat % 65536 else out.height
      if windowOk then
        some { windowX := out.x, windowY := out.y, windowW := width, windowH := height
               output := config.output, config := config
               width := (width : Int), height := (height : Int), scale := 1
               mapped := true, configured := true }
      else none

/-- `x11_configure_surface` (x11.c:616-650): store the new config, and
only when the requested width or height differs from the surface's
current ones issue an `xcb_configure_window` (the `int32_t` dimensions
are sent as `uint32_t` values) and update the cached dimensions.
Always returns true. -/
def x11_configure_surface (surface : CompositorSurfaceX11) (config : SurfaceConfig) :
    Bool × CompositorSurfaceX11 :=
  if config.width != surface.width || config.height != surface.height then
    (true, { surface with config := config
                          width := config.width, height := config.height
                          windowW := (config.width % 4294967296).toNat
                          windowH := (config.height % 4294967296).toNat })
  else
    (true, { surface with config := config })

/- ============================================================================
   SHARED HELPERS
   ============================================================================ -/

/-- A concrete operation table whose `init` succeeds (private data `Unit`). -/
def opsOkU : BackendOps Unit := ⟨some (), fun _ => 0⟩

/-- A `find?` hit in the left part of an append is a hit in the whole. -/
theorem find?_append_of_some {α : Type} {p : α → Bool} {l₁ l₂ : List α} {a : α}
    (h : l₁.find? p = some a) : (l₁ ++ l₂).find? p = some a := by
  induction l₁ with
  | nil => simp [List.find?] at h
  | cons x xs ih =>
    rw [List.cons_append]
    cases hx : p x with
    | true =>
      rw [List.find?_cons_of_pos _ hx] at h ⊢
      exact h
    | false =>
      rw [List.find?_cons_of_neg _ (by simp [hx])] at h ⊢
      exact ih h

/- ============================================================================
   CLAIM THEOREMS
   ============================================================================ -/

/-- C10: the public backend-lifecycle entry points are null-tolerant and
leave the registry unchanged on null input: `compositor_backend_init`
returns NULL (registry untouched) when the state pointer or its display
connection is NULL, `compositor_backend_cleanup` on a NULL backend does
nothing, and `compositor_backend_get_capabilities` on a NULL backend
returns `COMPOSITOR_CAP_NONE`. -/
theorem C10_null_tolerant_entry_points (δ : Type)
    (registerAll : List (RegEntry δ) → List (RegEntry δ))
    (env : EnvHints) (proto : ProtocolState) (reg : List (RegEntry δ)) :
    compositor_backend_init registerAll env proto reg none = (none, reg) ∧
    compositor_backend_init registerAll env proto reg (some ⟨none⟩) = (none, reg) ∧
    compositor_backend_cleanup (none : Option (CBackend δ)) = [] ∧
    compositor_backend_get_capabilities (none : Option (CBackend δ)) = COMPOSITOR_CAP_NONE :=
  ⟨rfl, rfl, rfl, rfl⟩

/-- C8: `x11_configure_surface` always reports success, and a second
call with the configuration already applied succeeds and leaves the
surface (dimensions, stored configuration, window geometry) exactly as
the first call left it. -/
theorem C8_configure_surface_idempotent (s : CompositorSurfaceX11) (c : SurfaceConfig) :
    (x11_configure_surface s c).1 = true ∧
    x11_configure_surface (x11_configure_surface s c).2 c =
      (true, (x11_configure_surface s c).2) := by
  constructor
  · unfold x11_configure_surface
    split <;> rfl
  · unfold x11_configure_surface
    by_cases h : (c.width != s.width || c.height != s.height) = true
    · simp [h]
    · simp [h]

/-- C7: a capability set with the layer-shell flag set and neither
desktop-shell flag, together with environment hints matching none of the
classifier's checks, classifies as the generic wlroots identity. -/
theorem C7_layer_shell_generic (env : EnvHints) (proto : ProtocolState)
    (he : envHas env.xdg_current_desktop "Hyprland" = false ∧
          envHas env.xdg_session_desktop "Hyprland" = false ∧
          envHas env.wayland_display "hyprland" = false ∧
          envHas env.xdg_current_desktop "sway" = false ∧
          envHas env.xdg_session_desktop "sway" = false ∧
          env.swaysock = false ∧
          envHas env.xdg_current_desktop "river" = false ∧
          envHas env.xdg_session_desktop "river" = false ∧
          envHas env.xdg_current_desktop "wayfire" = false ∧
          envHas env.xdg_session_desktop "wayfire" = false ∧
          envHas env.xdg_current_desktop "KDE" = false ∧
          envHas env.xdg_session_desktop "plasma" = false ∧
          envHas env.xdg_current_desktop "GNOME" = false ∧
          envHas env.xdg_session_desktop "gnome" = false ∧
          envHas env.xdg_session_desktop "mutter" = false ∧
          envHas env.xdg_current_desktop "weston" = false ∧
          envHas env.xdg_session_desktop "weston" = false)
    (hk : proto.has_kde_shell = false) (hg : proto.has_gtk_shell = false)
    (hl : proto.has_layer_shell = true) :
    detect_compositor_type env proto = .generic := by
  obtain ⟨h1, h2, h3, h4, h5, h6, h7, h8, h9, h10, h11, h12, h13, h14, h15, h16, h17⟩ := he
  simp [detect_compositor_type, h1, h2, h3, h4, h5, h6, h7, h8, h9, h10, h11, h12, h13,
    h14, h15, h16, h17, hk, hg, hl]

/-- C7 witness: absent environment variables and a layer-shell-only
capability set yield the generic identity. -/
theorem C7_layer_shell_generic_witness :
    detect_compositor_type ⟨none, none, none, false⟩ ⟨true, false, false, false, ""⟩ = .generic :=
  C7_layer_shell_generic ⟨none, none, none, false⟩ ⟨true, false, false, false, ""⟩
    (by decide) rfl rfl rfl

/-- C2 counterexample: with the RandR extension present but the
screen-resources query reply NULL, `x11_detect_outputs` fails (no
synthetic output is produced) and `x11_backend_init` therefore returns
NULL — the failure is not degraded to the single-output path. -/
theorem C2_randr_failure_counterexample :
    x11_detect_outputs ⟨true, 1920, 1080, none⟩ = none ∧
    x11_backend_init ⟨true, 1920, 1080, none⟩ false = none :=
  ⟨rfl, rfl⟩

/-- C2 amended: only the *absence* of the RandR extension degrades to a
single synthetic output covering the primary screen (and then backend
initialization succeeds); when RandR is present and the screen-resources
query fails, `x11_detect_outputs` fails and backend initialization
fails. -/
theorem C2_randr_absent_degrades (setup : X11Setup) (hx : Bool) :
    (setup.hasRandr = false →
      x11_detect_outputs setup =
        some [⟨0, 0, setup.screenWidth, setup.screenHeight, "screen"⟩] ∧
      x11_backend_init setup hx =
        some ⟨false, hx, [⟨0, 0, setup.screenWidth, setup.screenHeight, "screen"⟩], true⟩) ∧
    (setup.hasRandr = true → setup.randrResources = none →
      x11_detect_outputs setup = none ∧ x11_backend_init setup hx = none) := by
  constructor
  · intro h
    have hd : x11_detect_outputs setup =
        some [⟨0, 0, setup.screenWidth, setup.screenHeight, "screen"⟩] := by
      simp [x11_detect_outputs, h]
    exact ⟨hd, by simp [x11_backend_init, hd, h]⟩
  · intro h1 h2
    have hd : x11_detect_outputs setup = none := by
      simp [x11_detect_outputs, h1, h2]
    exact ⟨hd, by simp [x11_backend_init, hd]⟩

/-- C2 amended witness: RandR absent degrades to the synthetic output;
RandR present with a NULL resources reply makes init fail. -/
theorem C2_randr_absent_degrades_witness :
    x11_detect_outputs ⟨false, 1920, 1080, none⟩ = some [⟨0, 0, 1920, 1080, "screen"⟩] ∧
    x11_backend_init ⟨true, 800, 600, none⟩ true = none :=
  ⟨((C2_randr_absent_degrades ⟨false, 1920, 1080, none⟩ false).1 rfl).1,
   ((C2_randr_absent_degrades ⟨true, 800, 600, none⟩ true).2 rfl rfl).2⟩

/-- C9: `x11_create_surface` places and sizes every surface on the head
of the backend's output list: its window position is that output's
origin; a zero configured width/height falls back to that output's
dimensions; the resulting geometry does not depend on the
configuration's target-output field; and with no detected outputs the
call returns NULL. -/
theorem C9_create_surface_first_output (windowOk : Bool) (b : X11BackendData)
    (c : SurfaceConfig) (hb : b.initialized = true) :
    (b.outputs = [] → x11_create_surface windowOk b c = none) ∧
    (∀ out rest, b.outputs = out :: rest → windowOk = true →
      ((x11_create_surface windowOk b c).map fun s => (s.windowX, s.windowY)) =
        some (out.x, out.y) ∧
      (c.width = 0 →
        ((x11_create_surface windowOk b c).map fun s => s.windowW) = some out.width) ∧
      (c.height = 0 →
        ((x11_create_surface windowOk b c).map fun s => s.windowH) = some out.height) ∧
      ∀ o₁ o₂ : Option Nat,
        ((x11_create_surface windowOk b { c with output := o₁ }).map fun s =>
          (s.windowX, s.windowY, s.windowW, s.windowH)) =
        ((x11_create_surface windowOk b { c with output := o₂ }).map fun s =>
          (s.windowX, s.windowY, s.windowW, s.windowH))) := by
  constructor
  · intro h
    simp [x11_create_surface, hb, h]
  · intro out rest h hw
    refine ⟨?_, ?_, ?_, ?_⟩
    · simp [x11_create_surface, hb, h, hw]
    · intro hc
      simp [x11_create_surface, hb, h, hw, hc]
    · intro hc
      simp [x11_create_surface, hb, h, hw, hc]
    · intro o₁ o₂
      simp [x11_create_surface, hb, h, hw]

/-- C9 witness: on a backend with one 1920×1080 output at the origin and
an all-auto configuration, the surface is created at the origin with
the output's width. -/
theorem C9_create_surface_first_output_witness :
    ((x11_create_surface true ⟨false, false, [⟨0, 0, 1920, 1080, "screen"⟩], true⟩
        ⟨.background, 15, 0, false, 0, 0, none⟩).map fun s => (s.windowX, s.windowY)) =
      some (0, 0) ∧
    ((x11_create_surface true ⟨false, false, [⟨0, 0, 1920, 1080, "screen"⟩], true⟩
        ⟨.background, 15, 0, false, 0, 0, none⟩).map fun s => s.windowW) = some 1920 := by
  have h := (C9_create_surface_first_output true
    ⟨false, false, [⟨0, 0, 1920, 1080, "screen"⟩], true⟩
    ⟨.background, 15, 0, false, 0, 0, none⟩ rfl).2 ⟨0, 0, 1920, 1080, "screen"⟩ [] rfl rfl
  exact ⟨h.1, h.2.1 rfl⟩

/-- C5 counterexample: an empty (but non-NULL) backend name is accepted:
`register` appends it and reports success instead of failing with
`InvalidArgument`. -/
theorem C5_empty_name_counterexample :
    compositor_backend_register ([] : List (RegEntry Unit)) (some "") (some "d") 0 (some opsOkU) =
      (.ok, [⟨"", some "d", 0, opsOkU⟩]) :=
  rfl

/-- C5 amended: `register` fails with `RegistryFull` when the table is at
capacity, with `InvalidArgument` when name or ops is NULL (an empty name
string is not rejected), with `DuplicateName` when the name is already
present, and otherwise appends the descriptor and reports success. -/
theorem C5_register_cases {δ : Type} (reg : List (RegEntry δ))
    (name description : Option String) (priority : Int) (ops : Option (BackendOps δ)) :
    (MAX_BACKENDS ≤ reg.length →
      compositor_backend_register reg name description priority ops = (.registryFull, reg)) ∧
    (reg.length < MAX_BACKENDS → (name = none ∨ ops = none) →
      compositor_backend_register reg name description priority ops = (.invalidArgument, reg)) ∧
    (∀ nm o, reg.length < MAX_BACKENDS → name = some nm → ops = some o →
      reg.any (fun e => e.name == nm) = true →
      compositor_backend_register reg name description priority ops = (.duplicateName, reg)) ∧
    (∀ nm o, reg.length < MAX_BACKENDS → name = some nm → ops = some o →
      reg.any (fun e => e.name == nm) = false →
      compositor_backend_register reg name description priority ops =
        (.ok, reg ++ [⟨nm, description, priority, o⟩])) := by
  refine ⟨?_, ?_, ?_, ?_⟩
  · intro h
    simp [compositor_backend_register, h]
  · intro hlt hnull
    rcases hnull with h | h
    · subst h
      cases ops <;> simp [compositor_backend_register, Nat.not_le.mpr hlt]
    · subst h
      cases name <;> simp [compositor_backend_register, Nat.not_le.mpr hlt]
  · intro nm o hlt hn ho hdup
    subst hn; subst ho
    simp [compositor_backend_register, Nat.not_le.mpr hlt, hdup]
  · intro nm o hlt hn ho hdup
    subst hn; subst ho
    simp [compositor_backend_register, Nat.not_le.mpr hlt, hdup]

/-- C5 amended witness: registering the x11 backend into an empty table
appends its descriptor and reports success. -/
theorem C5_register_cases_witness :
    compositor_backend_register ([] : List (RegEntry Unit)) (some "x11")
      (some "X11/XCB backend") 50 (some opsOkU) =
      (.ok, [⟨"x11", some "X11/XCB backend", 50, opsOkU⟩]) :=
  (C5_register_cases ([] : List (RegEntry Unit)) (some "x11") (some "X11/XCB backend") 50
      (some opsOkU)).2.2.2 "x11" opsOkU (by decide) rfl rfl rfl

/-- C6: registration is append-only and atomic: every call either
appends exactly one descriptor at the end of the table or leaves it
entirely unchanged; a call at capacity leaves it unchanged; a
duplicate-name call fails and leaves it unchanged; and any name already
resolvable keeps resolving to its original (first) descriptor after any
further registration. -/
theorem C6_registry_append_only {δ : Type} (reg : List (RegEntry δ))
    (name description : Option String) (priority : Int) (ops : Option (BackendOps δ)) :
    ((compositor_backend_register reg name description priority ops).2 = reg ∨
      ∃ e, (compositor_backend_register reg name description priority ops).2 = reg ++ [e]) ∧
    (MAX_BACKENDS ≤ reg.length →
      (compositor_backend_register reg name description priority ops).2 = reg) ∧
    (∀ nm, name = some nm → (lookupBackend reg nm).isSome →
      (compositor_backend_register reg name description priority ops).1 ≠ .ok ∧
      (compositor_backend_register reg name description priority ops).2 = reg) ∧
    (∀ nm e, lookupBackend reg nm = some e →
      lookupBackend (compositor_backend_register reg name description priority ops).2 nm =
        some e) := by
  have hsplit : (compositor_backend_register reg name description priority ops).2 = reg ∨
      ∃ e, (compositor_backend_register reg name description priority ops).2 = reg ++ [e] := by
    unfold compositor_backend_register
    by_cases h : MAX_BACKENDS ≤ reg.length
    · simp [h]
    · cases name with
      | none => simp [h]
      | some nm =>
        cases ops with
        | none => simp [h]
        | some o =>
          by_cases hdup : reg.any (fun e => e.name == nm) = true
          · simp [h, hdup]
          · simp only [h, if_false]
            right
            exact ⟨⟨nm, description, priority, o⟩, by simp [hdup]⟩
  refine ⟨hsplit, ?_, ?_, ?_⟩
  · intro h
    simp [compositor_backend_register, h]
  · intro nm hn hfound
    subst hn
    have hdup : reg.any (fun e => e.name == nm) = true := by
      rw [List.any_eq_true]
      obtain ⟨e, he⟩ := Option.isSome_iff_exists.mp hfound
      have he2 : reg.find? (fun e => e.name == nm) = some e := he
      have hp := List.find?_some he2
      exact ⟨e, List.mem_of_find?_eq_some he2, hp⟩
    unfold compositor_backend_register
    by_cases h : MAX_BACKENDS ≤ reg.length
    · simp [h]
    · cases ops with
      | none => simp [h]
      | some o => simp [h, hdup]
  · intro nm e he
    rcases hsplit with h | ⟨x, h⟩
    · rw [h]; exact he
    · rw [h]
      exact find?_append_of_some he

/-- C6 witness: after an attempted duplicate registration of "fallback"
with different data, lookup still returns the original descriptor. -/
theorem C6_registry_append_only_witness :
    lookupBackend (compositor_backend_register
        ([⟨"fallback", some "Fallback backend", 10, opsOkU⟩] : List (RegEntry Unit))
        (some "fallback") (some "dup") 99 (some opsOkU)).2 "fallback" =
      some ⟨"fallback", some "Fallback backend", 10, opsOkU⟩ :=
  (C6_registry_append_only
      ([⟨"fallback", some "Fallback backend", 10, opsOkU⟩] : List (RegEntry Unit))
      (some "fallback") (some "dup") 99 (some opsOkU)).2.2.2 "fallback"
    ⟨"fallback", some "Fallback backend", 10, opsOkU⟩ rfl

/-- If every registry row carrying the given name has a failing `init`
(vacuously, if the name is absent), one lookup/init attempt fails. -/
theorem tryInitNamed_eq_none {δ : Type} {reg : List (RegEntry δ)} {nm : String}
    (h : ∀ e ∈ reg, e.name = nm → e.ops.init = none) : tryInitNamed reg nm = none := by
  unfold tryInitNamed
  cases hf : reg.find? (fun e => e.name == nm) with
  | none => rfl
  | some e =>
    have hm : e ∈ reg := List.mem_of_find?_eq_some hf
    have hp := List.find?_some hf
    have hi : e.ops.init = none := h e hm (by simpa using hp)
    simp [hi]

/-- C1: if every registry row named like the preferred backend has an
`init` that returns NULL (in particular if the preferred name is not
registered at all), the Selector's result equals the result of one
direct lookup/init attempt on the literal name "fallback" (given that
"fallback" is registered); and if that attempt also fails, the Selector
returns NULL, the no-backend-available value. -/
theorem C1_selector_fallback_refinement {δ : Type} (reg : List (RegEntry δ))
    (info : CompositorInfo)
    (hpref : ∀ e ∈ reg, e.name = preferred_backend info → e.ops.init = none)
    (_hfb : ∃ e ∈ reg, e.name = "fallback") :
    select_backend reg info = tryInitNamed reg "fallback" ∧
    (tryInitNamed reg "fallback" = none → select_backend reg info = none) := by
  have hnone : tryInitNamed reg (preferred_backend info) = none := tryInitNamed_eq_none hpref
  have hmain : select_backend reg info = tryInitNamed reg "fallback" := by
    unfold select_backend
    rw [hnone]
    by_cases hp : preferred_backend info = "fallback"
    · have hfb0 : tryInitNamed reg "fallback" = none := by rw [← hp]; exact hnone
      simp [hp, hfb0]
    · simp [hp]
  exact ⟨hmain, fun h => hmain.trans h⟩

/-- C1 witness: preferred backend "wlr-layer-shell" unregistered,
"fallback" registered with a succeeding init — the Selector's result is
the direct fallback attempt. -/
theorem C1_selector_fallback_refinement_witness :
    select_backend ([⟨"fallback", some "Fallback backend", 10, opsOkU⟩] : List (RegEntry Unit))
        ⟨.kdePlasma, true, true, false⟩ =
      tryInitNamed ([⟨"fallback", some "Fallback backend", 10, opsOkU⟩] : List (RegEntry Unit))
        "fallback" :=
  (C1_selector_fallback_refinement
      ([⟨"fallback", some "Fallback backend", 10, opsOkU⟩] : List (RegEntry Unit))
      ⟨.kdePlasma, true, true, false⟩
      (by
        intro e he hn
        simp only [List.mem_singleton] at he
        subst he
        simp [preferred_backend] at hn)
      ⟨⟨"fallback", some "Fallback backend", 10, opsOkU⟩, by simp, rfl⟩).1

/-- C4 counterexample: for a KDE Plasma identity with both the
"wlr-layer-shell" backend (priority 5, init succeeds) and the universal
"fallback" backend (priority 10, init succeeds) registered, the Selector
initializes the priority-5 backend, not the higher-priority one — the
integer priority does not drive selection. -/
theorem C4_low_priority_selected_counterexample :
    ((select_backend
        ([⟨"wlr-layer-shell", some "wlr", 5, opsOkU⟩,
          ⟨"fallback", some "universal", 10, opsOkU⟩] : List (RegEntry Unit))
        ⟨.kdePlasma, true, true, false⟩).map fun b => (b.name, b.priority)) =
      some ("wlr-layer-shell", 5) ∧
    ((tryInitNamed
        ([⟨"wlr-layer-shell", some "wlr", 5, opsOkU⟩,
          ⟨"fallback", some "universal", 10, opsOkU⟩] : List (RegEntry Unit))
        "fallback").map fun b => (b.name, b.priority)) = some ("fallback", 10) :=
  ⟨rfl, rfl⟩

/-- Rewrite one registry row's priority, leaving everything else. -/
def reprio {δ : Type} (f : Int → Int) (e : RegEntry δ) : RegEntry δ :=
  { e with priority := f e.priority }

/-- Re-prioritizing leaves a row's name unchanged. -/
theorem reprio_name {δ : Type} (f : Int → Int) (e : RegEntry δ) :
    (reprio f e).name = e.name := rfl

/-- `find?` by name commutes with re-prioritizing every row. -/
theorem find?_name_reprio {δ : Type} (f : Int → Int) (reg : List (RegEntry δ)) (nm : String) :
    (reg.map (reprio f)).find? (fun e => e.name == nm) =
      (reg.find? (fun e => e.name == nm)).map (reprio f) := by
  induction reg with
  | nil => rfl
  | cons x xs ih =>
    cases hx : x.name == nm with
    | true => simp [List.find?_cons, reprio_name, hx]
    | false => simp [List.find?_cons, reprio_name, hx, ih]

/-- One lookup/init attempt commutes with re-prioritizing every row. -/
theorem tryInitNamed_reprio {δ : Type} (f : Int → Int) (reg : List (RegEntry δ)) (nm : String) :
    tryInitNamed (reg.map (reprio f)) nm =
      (tryInitNamed reg nm).map fun b => { b with priority := f b.priority } := by
  unfold tryInitNamed
  rw [find?_name_reprio]
  cases hf : reg.find? (fun e => e.name == nm) with
  | none => rfl
  | some e =>
    cases hi : e.ops.init with
    | none => simp [reprio, hi]
    | some d => simp [reprio, hi]

/-- C4 amended: selection is driven purely by the fixed
compositor-type → backend-name table (with the "fallback" retry); the
registered integer priority never influences which backend is selected:
re-prioritizing every registry row arbitrarily commutes with selection,
changing only the priority recorded in the returned instance. -/
theorem C4_priority_never_consulted {δ : Type} (reg : List (RegEntry δ))
    (info : CompositorInfo) (f : Int → Int) :
    select_backend (reg.map (reprio f)) info =
      (select_backend reg info).map fun b => { b with priority := f b.priority } := by
  unfold select_backend
  rw [tryInitNamed_reprio]
  cases hf : tryInitNamed reg (preferred_backend info) with
  | some b => rfl
  | none =>
    simp only [Option.map_none']
    by_cases hp : (preferred_backend info == "fallback") = true
    · simp [hp]
    · simp only [hp, if_false]
      exact tryInitNamed_reprio f reg "fallback"

/-- C3 counterexample: environment hint `XDG_SESSION_DESKTOP=weston`
matches the classifier's Weston identity, yet with the KDE shell
protocol advertised the classifier returns the protocol-derived KDE
Plasma identity instead — the KDE protocol check runs before the Weston
environment check. -/
theorem C3_weston_env_overridden_counterexample :
    detect_compositor_type ⟨none, some "weston", none, false⟩ ⟨false, true, false, false, ""⟩ =
      .kdePlasma ∧
    envHas (some "weston") "weston" = true ∧ CompositorType.kdePlasma ≠ .weston :=
  ⟨rfl, rfl, by decide⟩

/-- C3 amended: the environment-before-protocol ordering holds for the
wlroots-compositor checks: whenever the classifier derives Hyprland,
Sway, River or Wayfire, that answer came from environment hints alone
and is unchanged under any protocol capability set.  (It fails for
Mutter/Weston, whose environment checks run after the KDE/GNOME
protocol-flag checks.) -/
theorem C3_wlroots_env_precedence (env : EnvHints) (p q : ProtocolState)
    (h : detect_compositor_type env p = .hyprland ∨ detect_compositor_type env p = .sway ∨
         detect_compositor_type env p = .river ∨ detect_compositor_type env p = .wayfire) :
    detect_compositor_type env q = detect_compositor_type env p := by
  unfold detect_compositor_type at h ⊢
  by_cases h1 : (envHas env.xdg_current_desktop "Hyprland"
      || envHas env.xdg_session_desktop "Hyprland"
      || envHas env.wayland_display "hyprland") = true
  · simp [h1]
  · by_cases h2 : (envHas env.xdg_current_desktop "sway"
        || envHas env.xdg_session_desktop "sway" || env.swaysock) = true
    · simp [h1, h2]
    · by_cases h3 : (envHas env.xdg_current_desktop "river"
          || envHas env.xdg_session_desktop "river") = true
      · simp [h1, h2, h3]
      · by_cases h4 : (envHas env.xdg_current_desktop "wayfire"
            || envHas env.xdg_session_desktop "wayfire") = true
        · simp [h1, h2, h3, h4]
        · exfalso
          simp only [h1, h2, h3, h4, if_false] at h
          split_ifs at h <;> simp_all

/-- C3 amended witness: with `XDG_CURRENT_DESKTOP=Hyprland` the
classification is Hyprland under a full capability set and is unchanged
under an empty one. -/
theorem C3_wlroots_env_precedence_witness :
    detect_compositor_type ⟨some "Hyprland", none, none, false⟩ ⟨false, false, false, false, ""⟩ =
      detect_compositor_type ⟨some "Hyprland", none, none, false⟩ ⟨true, true, true, true, ""⟩ :=
  C3_wlroots_env_precedence ⟨some "Hyprland", none, none, false⟩
    ⟨true, true, true, true, ""⟩ ⟨false, false, false, false, ""⟩ (Or.inl (by decide))

end Neowall
